import Mathlib

/-!
Shallow embedding of the USIM file-system emulator core:
the filesystem tree (`filesystem/nodes.py`), the APDU codec
(`apdu/parser.py`), the status words (`apdu/status_words.py`), the card
session (`card/context.py`), the handlers (`card/handlers.py`) and the
dispatcher (`apdu/router.py`).  Bytes are modelled as `Nat`, byte strings
as `List Nat`, Python exceptions as explicit error results.
-/

namespace USim

/-- Python exception kinds raised by the file-access methods:
`ValueError` for invalid arguments, `IndexError` for out-of-range access. -/
inductive PyErr where
  | valueError
  | indexError
deriving DecidableEq, Repr

/-- Node of the on-card filesystem (`filesystem/nodes.py`).
`df` covers both `DF` and `MF` (an `MF` is just a `DF` at the root);
`transparentEF` holds raw content bytes; `linearFixedEF` holds
equal-length records.  The `children` dict of a `DF` is insertion-ordered
with fid-unique keys, modelled as a list of child nodes.  The `parent`
back-reference is used only for path printing and is omitted. -/
inductive FileNode where
  | df (fid : Nat) (name : String) (children : List FileNode)
  | transparentEF (fid : Nat) (name : String) (content : List Nat)
  | linearFixedEF (fid : Nat) (name : String) (record_len : Nat) (records : List (List Nat))
deriving Repr

/-- The `fid` attribute common to all node kinds. -/
def FileNode.fid : FileNode → Nat
  | .df f _ _ => f
  | .transparentEF f _ _ => f
  | .linearFixedEF f _ _ _ => f

/-- Test `isinstance(node, DF)`. -/
def FileNode.isDF : FileNode → Bool
  | .df _ _ _ => true
  | _ => false

/-- Direct children of a node (empty for leaf EFs, which have none). -/
def FileNode.children : FileNode → List FileNode
  | .df _ _ cs => cs
  | _ => []

mutual
/-- Method `DF.find` from `filesystem/nodes.py`: if `fid` equals this DF's own
fid return the DF itself; else if `fid` is among the direct children
return that child; else recurse into each DF-typed child in insertion
order, returning the first hit.  Only `DF` nodes have a `find` method in
the source; the session only ever invokes it on containers, and the
catch-all leaf branch returns `none`. -/
def FileNode.find : FileNode → Nat → Option FileNode
  | .df f nm cs, fid =>
    if fid = f then some (.df f nm cs)
    else
      match cs.find? (fun c => c.fid == fid) with
      | some c => some c
      | none => FileNode.findFromChildren cs fid

  | _, _ => none

/-- The `for child in self.children.values(): if isinstance(child, DF): ...`
loop of `DF.find`: try `find` on each DF-typed child in order. -/
def FileNode.findFromChildren : List FileNode → Nat → Option FileNode
  | [], _ => none
  | c :: rest, fid =>
    if c.isDF then
      match FileNode.find c fid with
      | some hit => some hit
      | none => FileNode.findFromChildren rest fid
    else FileNode.findFromChildren rest fid
end

/-- Method `TransparentEF.read_binary` (`filesystem/nodes.py`), with the EF's
`content` passed explicitly.  Negative offset or length raise
`ValueError`; `offset > len(content)` raises `IndexError`; otherwise the
Python slice `content[offset:offset+length]` is returned. -/
def read_binary (content : List Nat) (offset length : Int) : Except PyErr (List Nat) :=
  if offset < 0 then .error .valueError
  else if length < 0 then .error .valueError
  else if (content.length : Int) < offset then .error .indexError
  else .ok ((content.drop offset.toNat).take length.toNat)

/-- Method `LinearFixedEF.read_record` (`filesystem/nodes.py`), with the EF's
`records` passed explicitly.  `record_number` is 1-based; `0` and numbers
past the record count raise `IndexError`. -/
def read_record (records : List (List Nat)) (record_number : Nat) : Except PyErr (List Nat) :=
  if record_number = 0 then .error .indexError
  else if records.length ≤ record_number - 1 then .error .indexError
  else .ok (records.getD (record_number - 1) [])

/-- Parsed command APDU (`apdu/parser.py`). -/
structure Apdu where
  cla : Nat
  ins : Nat
  p1 : Nat
  p2 : Nat
  lc : Nat
  data : List Nat
  le : Option Nat
deriving DecidableEq, Repr

/-- Derived value `(p1 << 8) | p2`. -/
def Apdu.p1p2 (a : Apdu) : Nat := (a.p1 <<< 8) ||| a.p2

/-- Property `lc > 0`. -/
def Apdu.has_data (a : Apdu) : Bool := decide (0 < a.lc)

/-- Property `le is not None`. -/
def Apdu.has_le (a : Apdu) : Bool := a.le.isSome

/-- Function `parse_apdu` from `apdu/parser.py`; `none` models a raised
`ApduParseError`.  Case 1: 4 bytes, header only.  Case 2: 5 bytes,
header + Le.  Length at least 6: Lc at offset 4, then Lc data bytes
(error if fewer remain), then no byte (Case 3), one Le byte (Case 4),
or an error on further trailing bytes. -/
def parse_apdu (raw : List Nat) : Option Apdu :=
  match raw with
  | cla :: ins :: p1 :: p2 :: rest =>
    match rest with
    | [] => some ⟨cla, ins, p1, p2, 0, [], none⟩
    | [le] => some ⟨cla, ins, p1, p2, 0, [], some le⟩
    | lc :: tail =>
      if tail.length < lc then none
      else
        match tail.drop lc with
        | [] => some ⟨cla, ins, p1, p2, lc, tail.take lc, none⟩
        | [le] => some ⟨cla, ins, p1, p2, lc, tail.take lc, some le⟩
        | _ => none
  | _ => none

/-- Modelled from the spec: the Case 1–4 short-APDU encoding that
`parse_apdu` decodes — the 4 header bytes, then `Lc` and the data bytes
when the command carries data (`has_data`, i.e. `lc > 0`), then the `Le`
byte when present.  No encoder exists in the repository source; this
definition follows the spec's description of the producible buffers. -/
def encode_apdu (a : Apdu) : List Nat :=
  [a.cla, a.ins, a.p1, a.p2]
    ++ (if a.has_data then a.lc :: a.data else [])
    ++ (match a.le with | none => [] | some le => [le])

/-! Status words from `apdu/status_words.py`. -/

def SW_SUCCESS : List Nat := [0x90, 0x00]

def SW_WRONG_LENGTH : List Nat := [0x67, 0x00]

def SW_INS_NOT_SUPPORTED : List Nat := [0x6D, 0x00]

def SW_CLA_NOT_SUPPORTED : List Nat := [0x6E, 0x00]

def SW_FILE_NOT_FOUND : List Nat := [0x6A, 0x82]

def SW_RECORD_NOT_FOUND : List Nat := [0x6A, 0x83]

def SW_WRONG_P1P2 : List Nat := [0x6B, 0x00]

def SW_FUNC_NOT_SUPPORTED : List Nat := [0x6A, 0x81]

def SW_COMMAND_NOT_ALLOWED : List Nat := [0x69, 0x86]

def SW_COND_NOT_SATISFIED : List Nat := [0x69, 0x85]

def SW_SECURITY_STATUS_NOT_SATISFIED : List Nat := [0x69, 0x82]

/-- The status vocabulary of the spec's section 4.2: the full catalogue of
two-byte codes declared in `apdu/status_words.py`. -/
def statusVocab : List (List Nat) :=
  [SW_SUCCESS, SW_WRONG_LENGTH, SW_INS_NOT_SUPPORTED, SW_CLA_NOT_SUPPORTED,
   SW_FILE_NOT_FOUND, SW_RECORD_NOT_FOUND, SW_WRONG_P1P2,
   SW_FUNC_NOT_SUPPORTED, SW_COMMAND_NOT_ALLOWED, SW_COND_NOT_SATISFIED,
   SW_SECURITY_STATUS_NOT_SATISFIED]

/-- The status words produced by `dispatch` and the three handlers. -/
def producedSW : List (List Nat) :=
  [SW_SUCCESS, SW_WRONG_LENGTH, SW_INS_NOT_SUPPORTED, SW_FILE_NOT_FOUND,
   SW_RECORD_NOT_FOUND, SW_WRONG_P1P2, SW_FUNC_NOT_SUPPORTED,
   SW_COMMAND_NOT_ALLOWED]

/-- Session state (`card/context.py`): the tree root and the currently
selected DF and file. -/
structure CardContext where
  mf_root : FileNode
  current_df : FileNode
  current_file : FileNode

/-- Method `CardContext.select_node`: the node becomes the current file and, when
it is a DF, also the current DF. -/
def CardContext.select_node (ctx : CardContext) (node : FileNode) : CardContext :=
  { ctx with
    current_file := node
    current_df := if node.isDF then node else ctx.current_df }

/-- Method `CardContext.reset_to_mf`: select the MF root. -/
def CardContext.reset_to_mf (ctx : CardContext) : CardContext :=
  { ctx with current_df := ctx.mf_root, current_file := ctx.mf_root }

/-- Method `CardContext.find_anywhere`: recursive search from the MF root. -/
def CardContext.find_anywhere (ctx : CardContext) (fid : Nat) : Option FileNode :=
  ctx.mf_root.find fid

/-- Method `CardContext.find_under_current_df`: recursive search from the current DF. -/
def CardContext.find_under_current_df (ctx : CardContext) (fid : Nat) : Option FileNode :=
  ctx.current_df.find fid

/-- The `fid = (apdu.data[0] << 8) | apdu.data[1]` computation of
`handle_select`. -/
def fid_of_data (data : List Nat) : Nat := (data.getD 0 0) <<< 8 ||| data.getD 1 0

/-- Handler `handle_select` (`card/handlers.py`).  The Python handler mutates the
context; here the updated context is returned with the response bytes. -/
def handle_select (ctx : CardContext) (apdu : Apdu) : CardContext × List Nat :=
  if apdu.lc = 0 ∨ apdu.data.length = 0 then (ctx, SW_WRONG_LENGTH)
  else if apdu.data.length ≠ 2 then (ctx, SW_FUNC_NOT_SUPPORTED)
  else if fid_of_data apdu.data = ctx.mf_root.fid then (ctx.reset_to_mf, SW_SUCCESS)
  else
    match
      (match ctx.find_under_current_df (fid_of_data apdu.data) with
       | some n => some n
       | none => ctx.find_anywhere (fid_of_data apdu.data)) with
    | none => (ctx, SW_FILE_NOT_FOUND)
    | some n => (ctx.select_node n, SW_SUCCESS)

/-- Handler `handle_read_binary` (`card/handlers.py`): Transparent EFs only;
`Le` is mandatory, `Le = 0` means 256; offset is `p1p2`; both
`IndexError` and `ValueError` from `read_binary` surface as `6B 00`. -/
def handle_read_binary (ctx : CardContext) (apdu : Apdu) : CardContext × List Nat :=
  match ctx.current_file with
  | .transparentEF _ _ content =>
    match apdu.le with
    | none => (ctx, SW_WRONG_LENGTH)
    | some le =>
      match read_binary content (apdu.p1p2 : Int) ((if le = 0 then 256 else le : Nat) : Int) with
      | .error _ => (ctx, SW_WRONG_P1P2)
      | .ok data => (ctx, data ++ SW_SUCCESS)
  | _ => (ctx, SW_COMMAND_NOT_ALLOWED)

/-- Handler `handle_read_record` (`card/handlers.py`): Linear Fixed EFs only;
only absolute mode (`p2 & 0x07 == 0x04`); record number is `p1`, 1-based;
the record is truncated to `Le` bytes when `Le` is present. -/
def handle_read_record (ctx : CardContext) (apdu : Apdu) : CardContext × List Nat :=
  match ctx.current_file with
  | .linearFixedEF _ _ _ records =>
    if apdu.p2 &&& 0x07 ≠ 0x04 then (ctx, SW_FUNC_NOT_SUPPORTED)
    else if apdu.p1 = 0 then (ctx, SW_WRONG_P1P2)
    else
      match read_record records apdu.p1 with
      | .error _ => (ctx, SW_RECORD_NOT_FOUND)
      | .ok record =>
        match apdu.le with
        | none => (ctx, record ++ SW_SUCCESS)
        | some le => (ctx, record.take (if le = 0 then 256 else le) ++ SW_SUCCESS)
  | _ => (ctx, SW_COMMAND_NOT_ALLOWED)

/-- Instruction byte of SELECT FILE. -/
def INS_SELECT_FILE : Nat := 0xA4

/-- Instruction byte of READ BINARY. -/
def INS_READ_BINARY : Nat := 0xB0

/-- Instruction byte of READ RECORD. -/
def INS_READ_RECORD : Nat := 0xB2

/-- Router `dispatch` (`apdu/router.py`): route by `ins` through the fixed
handler map; a lookup miss returns `6D 00` without invoking a handler. -/
def dispatch (ctx : CardContext) (apdu : Apdu) : CardContext × List Nat :=
  if apdu.ins = INS_SELECT_FILE then handle_select ctx apdu
  else if apdu.ins = INS_READ_BINARY then handle_read_binary ctx apdu
  else if apdu.ins = INS_READ_RECORD then handle_read_record ctx apdu
  else (ctx, SW_INS_NOT_SUPPORTED)

mutual
/-- Specification-side description of the order in which `DF.find` visits
nodes: the container itself, its direct children in insertion order, then
recursively the visit sequences of its container-typed children in
insertion order.  Leaf files contribute only themselves and are never
searched into. -/
def visitSeq : FileNode → List FileNode
  | .df f nm cs => .df f nm cs :: (cs ++ visitSeqChildren cs)
  | t => [t]

/-- Visit sequences of the DF-typed members of a child list, concatenated
in insertion order; leaf children contribute nothing. -/
def visitSeqChildren : List FileNode → List FileNode
  | [] => []
  | c :: rest => (if c.isDF then visitSeq c else []) ++ visitSeqChildren rest
end

/-- All nodes of the tree lying at exactly the given depth below `t`
(depth 0 is `t` itself). -/
def nodesAtDepth : FileNode → Nat → List FileNode
  | t, 0 => [t]
  | t, d + 1 => (t.children.map (fun c => nodesAtDepth c d)).flatten

/-! Concrete example trees for counterexamples and witnesses. -/

/-- A leaf with fid `0x70` sitting at depth 3, inside the first-inserted
container branch. -/
def exDeep : FileNode := .transparentEF 0x70 "deep" [1]

/-- A leaf with the same fid `0x70` sitting at depth 2, inside the
second-inserted container branch. -/
def exShallow : FileNode := .transparentEF 0x70 "shallow" [2]

/-- Intermediate DF holding `exDeep`. -/
def exA1 : FileNode := .df 0x5F01 "A1" [exDeep]

/-- First-inserted DF child of the example root. -/
def exA : FileNode := .df 0x7F01 "A" [exA1]

/-- Second-inserted DF child of the example root, holding `exShallow`. -/
def exB : FileNode := .df 0x7F02 "B" [exShallow]

/-- Example root: fid `0x70` occurs at depth 3 under the first-inserted
branch and at depth 2 under the second-inserted branch. -/
def exRoot : FileNode := .df 0x3F00 "MF" [exA, exB]

/-- Example tree for the SELECT witnesses: the fid `0x6F07` is present
both under `wDF2` (second branch) and under `wDF1` (first branch). -/
def wEF1 : FileNode := .transparentEF 0x6F07 "telecom-ef" [0xAA]

/-- The copy of fid `0x6F07` under the second branch. -/
def wEF2 : FileNode := .transparentEF 0x6F07 "usim-ef" [0xBB]

/-- First-inserted DF of the witness tree. -/
def wDF1 : FileNode := .df 0x7F10 "TELECOM" [wEF1]

/-- Second-inserted DF of the witness tree. -/
def wDF2 : FileNode := .df 0x7F20 "USIM" [wEF2]

/-- A linear-fixed EF with two 2-byte records, for the READ RECORD witness. -/
def wLF : FileNode := .linearFixedEF 0x6F3A "ADN" 2 [[1, 2], [3, 4]]

/-- A transparent EF with three content bytes, for the READ BINARY witness. -/
def wTR : FileNode := .transparentEF 0x2FE2 "ICCID" [9, 8, 7]

/-- Root of the witness tree. -/
def wRoot : FileNode := .df 0x3F00 "MF" [wDF1, wDF2, wLF, wTR]

/-- Witness session: `wDF2` currently selected, so that relative lookup of
`0x6F07` must resolve to `wEF2` even though `wEF1` exists under `wDF1`. -/
def wCtx : CardContext := ⟨wRoot, wDF2, wDF2⟩

/-- Witness session whose current file is the linear-fixed EF `wLF`. -/
def wCtxLF : CardContext := ⟨wRoot, wRoot, wLF⟩

/-- Witness session whose current file is the transparent EF `wTR`. -/
def wCtxTR : CardContext := ⟨wRoot, wRoot, wTR⟩

/-! ## Theorems -/

/-- C4: `parse_apdu` behaves exactly by total length: fewer than 4 bytes
is an error; exactly 4 is Case 1; exactly 5 is Case 2 with `le` the fifth
byte; 6 or more reads `lc` at offset 4 and `lc` data bytes (error when
fewer remain), then 0 trailing bytes give Case 3, exactly 1 gives Case 4,
and more than 1 is an error. -/
theorem parse_apdu_by_length (raw : List Nat) :
    (raw.length < 4 → parse_apdu raw = none) ∧
    (raw.length = 4 → parse_apdu raw =
       some ⟨raw.getD 0 0, raw.getD 1 0, raw.getD 2 0, raw.getD 3 0, 0, [], none⟩) ∧
    (raw.length = 5 → parse_apdu raw =
       some ⟨raw.getD 0 0, raw.getD 1 0, raw.getD 2 0, raw.getD 3 0, 0, [],
             some (raw.getD 4 0)⟩) ∧
    (6 ≤ raw.length →
       (raw.length - 5 < raw.getD 4 0 → parse_apdu raw = none) ∧
       (raw.getD 4 0 ≤ raw.length - 5 →
          (raw.length - 5 - raw.getD 4 0 = 0 → parse_apdu raw =
             some ⟨raw.getD 0 0, raw.getD 1 0, raw.getD 2 0, raw.getD 3 0,
                   raw.getD 4 0, (raw.drop 5).take (raw.getD 4 0), none⟩) ∧
          (raw.length - 5 - raw.getD 4 0 = 1 → parse_apdu raw =
             some ⟨raw.getD 0 0, raw.getD 1 0, raw.getD 2 0, raw.getD 3 0,
                   raw.getD 4 0, (raw.drop 5).take (raw.getD 4 0),
                   some (((raw.drop 5).drop (raw.getD 4 0)).getD 0 0)⟩) ∧
          (1 < raw.length - 5 - raw.getD 4 0 → parse_apdu raw = none))) := by
  rcases raw with _ | ⟨c0, _ | ⟨c1, _ | ⟨c2, _ | ⟨c3, _ | ⟨lc, _ | ⟨t0, tail⟩⟩⟩⟩⟩⟩
  · exact ⟨fun _ => rfl, by simp, by simp, by simp⟩
  · exact ⟨fun _ => rfl, by simp, by simp, by simp⟩
  · exact ⟨fun _ => rfl, by simp, by simp, by simp⟩
  · exact ⟨fun _ => rfl, by simp, by simp, by simp⟩
  · exact ⟨by simp, fun _ => rfl, by simp, by simp⟩
  · exact ⟨by simp, by simp, fun _ => rfl, by simp⟩
  · refine ⟨by simp, by simp, by simp, fun _ => ?_⟩
    have hlen : (c0 :: c1 :: c2 :: c3 :: lc :: t0 :: tail : List Nat).length
        = 6 + tail.length := by simp; omega
    have hget4 : (c0 :: c1 :: c2 :: c3 :: lc :: t0 :: tail : List Nat).getD 4 0 = lc := rfl
    have hdrop5 : (c0 :: c1 :: c2 :: c3 :: lc :: t0 :: tail : List Nat).drop 5
        = t0 :: tail := rfl
    have hparse : parse_apdu (c0 :: c1 :: c2 :: c3 :: lc :: t0 :: tail) =
        if (t0 :: tail).length < lc then none
        else
          match (t0 :: tail).drop lc with
          | [] => some ⟨c0, c1, c2, c3, lc, (t0 :: tail).take lc, none⟩
          | [le] => some ⟨c0, c1, c2, c3, lc, (t0 :: tail).take lc, some le⟩
          | _ => none := rfl
    rw [hlen, hget4, hdrop5, hparse]
    by_cases hc : (t0 :: tail).length < lc
    · have hc' : tail.length + 1 < lc := by simpa using hc
      rw [if_pos hc]
      exact ⟨fun _ => rfl, fun hle => absurd hle (by omega)⟩
    · have hc' : lc ≤ tail.length + 1 := by simpa using Nat.le_of_not_lt hc
      rw [if_neg hc]
      refine ⟨fun habs => absurd habs (by omega), fun _ => ?_⟩
      rcases hd : (t0 :: tail).drop lc with _ | ⟨x, _ | ⟨y, ys⟩⟩ <;>
        have hl := congrArg List.length hd <;>
        simp [List.length_drop] at hl
      · exact ⟨fun _ => rfl, fun h1 => absurd h1 (by omega), fun h2 => absurd h2 (by omega)⟩
      · exact ⟨fun h0 => absurd h0 (by omega), fun _ => rfl, fun h2 => absurd h2 (by omega)⟩
      · exact ⟨fun h0 => absurd h0 (by omega), fun h1 => absurd h1 (by omega), fun _ => rfl⟩

/-- C4 witness: the spec's scenario buffer `00 A4 00 0C 02 3F 00` decodes
through the length-at-least-6, zero-trailing-bytes branch. -/
theorem parse_apdu_by_length_witness :
    parse_apdu [0x00, 0xA4, 0x00, 0x0C, 0x02, 0x3F, 0x00] =
      some ⟨0x00, 0xA4, 0x00, 0x0C, 2, [0x3F, 0x00], none⟩ := by
  have h := ((parse_apdu_by_length
    [0x00, 0xA4, 0x00, 0x0C, 0x02, 0x3F, 0x00]).2.2.2 (by decide)).2 (by decide)
  simpa using h.1 (by decide)

/-- Helper for C2: parsing a buffer shaped header + `Lc` + nonempty data
+ `rest` reduces to a case split on `rest`. -/
lemma parse_apdu_data_append (c i q r d : Nat) (ds rest : List Nat) :
    parse_apdu (c :: i :: q :: r :: (d :: ds).length :: ((d :: ds) ++ rest)) =
      match rest with
      | [] => some ⟨c, i, q, r, (d :: ds).length, d :: ds, none⟩
      | [w] => some ⟨c, i, q, r, (d :: ds).length, d :: ds, some w⟩
      | _ => none := by
  have hnl : ¬ ((d :: ds) ++ rest).length < (d :: ds).length := by
    simp [List.length_append]
  have hstep : parse_apdu (c :: i :: q :: r :: (d :: ds).length :: ((d :: ds) ++ rest)) =
      if ((d :: ds) ++ rest).length < (d :: ds).length then none
      else
        match ((d :: ds) ++ rest).drop (d :: ds).length with
        | [] => some ⟨c, i, q, r, (d :: ds).length,
            ((d :: ds) ++ rest).take (d :: ds).length, none⟩
        | [w] => some ⟨c, i, q, r, (d :: ds).length,
            ((d :: ds) ++ rest).take (d :: ds).length, some w⟩
        | _ => none := rfl
  rw [hstep, if_neg hnl, List.drop_left, List.take_left]

/-- C2: every buffer the Case 1–4 encoding can produce decodes to the
very Apdu it encodes, so decoding then re-encoding reproduces the buffer
exactly.  The well-formedness hypothesis states that the Apdu carries
exactly `lc` data bytes, which is true of every parser output and every
encodable command. -/
theorem parse_encode_roundtrip (a : Apdu) (h : a.data.length = a.lc) :
    parse_apdu (encode_apdu a) = some a ∧
    (parse_apdu (encode_apdu a)).map encode_apdu = some (encode_apdu a) := by
  obtain ⟨cla, ins, p1, p2, lc, data, le⟩ := a
  simp only at h
  subst h
  have hmain : parse_apdu (encode_apdu ⟨cla, ins, p1, p2, data.length, data, le⟩) =
      some ⟨cla, ins, p1, p2, data.length, data, le⟩ := by
    cases data with
    | nil => cases le with
      | none => rfl
      | some v => rfl
    | cons d ds => cases le with
      | none =>
        have henc : encode_apdu ⟨cla, ins, p1, p2, (d :: ds).length, d :: ds, none⟩ =
            cla :: ins :: p1 :: p2 :: (d :: ds).length :: ((d :: ds) ++ []) := by
          simp [encode_apdu, Apdu.has_data]
        rw [henc]
        exact parse_apdu_data_append cla ins p1 p2 d ds []
      | some v =>
        have henc : encode_apdu ⟨cla, ins, p1, p2, (d :: ds).length, d :: ds, some v⟩ =
            cla :: ins :: p1 :: p2 :: (d :: ds).length :: ((d :: ds) ++ [v]) := by
          simp [encode_apdu, Apdu.has_data]
        rw [henc]
        exact parse_apdu_data_append cla ins p1 p2 d ds [v]
  exact ⟨hmain, by rw [hmain]; rfl⟩

/-- C2 witness: the round trip at a concrete Case 3 command. -/
theorem parse_encode_roundtrip_witness :
    parse_apdu (encode_apdu ⟨0x00, 0xA4, 0x00, 0x0C, 2, [0x3F, 0x00], none⟩) =
        some ⟨0x00, 0xA4, 0x00, 0x0C, 2, [0x3F, 0x00], none⟩ ∧
      (parse_apdu (encode_apdu ⟨0x00, 0xA4, 0x00, 0x0C, 2, [0x3F, 0x00], none⟩)).map
          encode_apdu =
        some (encode_apdu ⟨0x00, 0xA4, 0x00, 0x0C, 2, [0x3F, 0x00], none⟩) :=
  parse_encode_roundtrip ⟨0x00, 0xA4, 0x00, 0x0C, 2, [0x3F, 0x00], none⟩ (by decide)

/-- Helper for C1: `find` and `findFromChildren` compute the first match
in the corresponding visit sequences; proved by strong induction on the
node size. -/
lemma find_visit_aux (n : Nat) :
    (∀ t : FileNode, sizeOf t ≤ n → ∀ fid, t.isDF = true →
        t.find fid = (visitSeq t).find? (fun m => m.fid == fid)) ∧
    (∀ cs : List FileNode, sizeOf cs ≤ n → ∀ fid,
        FileNode.findFromChildren cs fid =
          (visitSeqChildren cs).find? (fun m => m.fid == fid)) := by
  induction n with
  | zero =>
    constructor
    · intro t ht
      exfalso
      cases t <;> simp at ht
    · intro cs hcs
      exfalso
      cases cs <;> simp at hcs
  | succ n ih =>
    constructor
    · intro t ht fid hdf
      cases t with
      | transparentEF f nm c => simp [FileNode.isDF] at hdf
      | linearFixedEF f nm rl rs => simp [FileNode.isDF] at hdf
      | df f nm cs =>
        have hcs : sizeOf cs ≤ n := by
          simp at ht
          omega
        have hfind : FileNode.find (.df f nm cs) fid =
            (if fid = f then some (.df f nm cs)
             else
               match cs.find? (fun c => c.fid == fid) with
               | some c => some c
               | none => FileNode.findFromChildren cs fid) := rfl
        have hvs : visitSeq (.df f nm cs) =
            .df f nm cs :: (cs ++ visitSeqChildren cs) := rfl
        rw [hfind, hvs]
        by_cases hf : fid = f
        · rw [if_pos hf, List.find?_cons_of_pos]
          simp [FileNode.fid, hf]
        · rw [if_neg hf, List.find?_cons_of_neg, List.find?_append]
          · cases hfc : cs.find? (fun c => c.fid == fid) with
            | some c => simp [hfc]
            | none => simp [hfc, ih.2 cs hcs fid]
          · simp [FileNode.fid]
            exact fun habs => hf habs.symm
    · intro cs hcs fid
      cases cs with
      | nil => rfl
      | cons c rest =>
        have hszc : sizeOf c ≤ n := by
          simp at hcs
          omega
        have hszr : sizeOf rest ≤ n := by
          simp at hcs
          omega
        have hvsc : visitSeqChildren (c :: rest) =
            (if c.isDF then visitSeq c else []) ++ visitSeqChildren rest := rfl
        have hffc : FileNode.findFromChildren (c :: rest) fid =
            (if c.isDF then
              match FileNode.find c fid with
              | some hit => some hit
              | none => FileNode.findFromChildren rest fid
             else FileNode.findFromChildren rest fid) := rfl
        rw [hvsc, hffc]
        cases hdf : c.isDF with
        | false => simpa using ih.2 rest hszr fid
        | true =>
          rw [ih.1 c hszc fid hdf]
          have hrest := ih.2 rest hszr fid
          cases hv : (visitSeq c).find? (fun m => m.fid == fid) <;>
            simp [hv, hrest, List.find?_append]

/-- C1 amended: `find(fid)` on a container returns the first node with a
matching fid in the depth-first visit order — the container itself, then
its direct children in insertion order, then recursively the visit
sequences of its container-typed children in insertion order; leaf files
are never searched into.  A match at the container or among its direct
children beats every deeper match, and earlier-inserted container
subtrees are searched exhaustively before later ones, so a deeper match
inside an earlier-inserted container wins over a shallower match in a
later-inserted one. -/
theorem find_eq_first_visit (f : Nat) (nm : String) (cs : List FileNode) (fid : Nat) :
    FileNode.find (.df f nm cs) fid =
      (visitSeq (.df f nm cs)).find? (fun m => m.fid == fid) :=
  (find_visit_aux (sizeOf (FileNode.df f nm cs))).1 _ (Nat.le_refl _) fid rfl

/-- C1 counterexample: the fid `0x70` occurs at depth 2 (node
`exShallow`, in the second-inserted branch) and at depth 3 (node
`exDeep`, in the first-inserted branch), yet `find` returns the deeper
`exDeep` — a shallow match does not always win over a deeper one. -/
theorem find_shallowest_counterexample :
    FileNode.find exRoot 0x70 = some exDeep ∧
    (nodesAtDepth exRoot 2).filter (fun m => m.fid == 0x70) = [exShallow] ∧
    (nodesAtDepth exRoot 3).filter (fun m => m.fid == 0x70) = [exDeep] ∧
    exDeep ≠ exShallow := by
  refine ⟨rfl, rfl, rfl, ?_⟩
  simp [exDeep, exShallow]

/-- C3 amended: `read_binary` fails with the invalid-argument error kind
(Python `ValueError`) when the offset is negative — the same kind as for
a negative length — and with the out-of-range kind (Python `IndexError`)
only when the offset exceeds the content length; otherwise it returns
the sub-range `[offset, offset+length)` silently truncated to the content
length.  At the dispatch level, READ BINARY at offset equal to the
content length returns an empty data field with `90 00`, and offset
beyond the content length returns `6B 00`. -/
theorem read_binary_truncating (ctx : CardContext) :
    (∀ (content : List Nat) (offset length : Int),
      (offset < 0 → read_binary content offset length = .error .valueError) ∧
      (0 ≤ offset → length < 0 → read_binary content offset length = .error .valueError) ∧
      (0 ≤ offset → 0 ≤ length → (content.length : Int) < offset →
        read_binary content offset length = .error .indexError) ∧
      (0 ≤ offset → 0 ≤ length → offset ≤ (content.length : Int) →
        read_binary content offset length =
          .ok ((content.drop offset.toNat).take length.toNat))) ∧
    (∀ (cla p1 p2 lc : Nat) (data : List Nat) (l f : Nat) (nm : String)
        (content : List Nat),
      ctx.current_file = FileNode.transparentEF f nm content →
      ((Apdu.p1p2 ⟨cla, 0xB0, p1, p2, lc, data, some l⟩ = content.length →
         dispatch ctx ⟨cla, 0xB0, p1, p2, lc, data, some l⟩ = (ctx, SW_SUCCESS)) ∧
       (content.length < Apdu.p1p2 ⟨cla, 0xB0, p1, p2, lc, data, some l⟩ →
         dispatch ctx ⟨cla, 0xB0, p1, p2, lc, data, some l⟩ = (ctx, SW_WRONG_P1P2)))) := by
  constructor
  · intro content offset length
    refine ⟨fun h => ?_, fun h0 hl => ?_, fun h0 hl ho => ?_, fun h0 hl ho => ?_⟩
    · unfold read_binary
      rw [if_pos h]
    · unfold read_binary
      rw [if_neg (not_lt.mpr h0), if_pos hl]
    · unfold read_binary
      rw [if_neg (not_lt.mpr h0), if_neg (not_lt.mpr hl), if_pos ho]
    · unfold read_binary
      rw [if_neg (not_lt.mpr h0), if_neg (not_lt.mpr hl), if_neg (not_lt.mpr ho)]
  · intro cla p1 p2 lc data l f nm content hcf
    have hdisp : dispatch ctx ⟨cla, 0xB0, p1, p2, lc, data, some l⟩ =
        handle_read_binary ctx ⟨cla, 0xB0, p1, p2, lc, data, some l⟩ := rfl
    have hrb : handle_read_binary ctx ⟨cla, 0xB0, p1, p2, lc, data, some l⟩ =
        match read_binary content
            ((Apdu.p1p2 ⟨cla, 0xB0, p1, p2, lc, data, some l⟩ : Nat) : Int)
            (((if l = 0 then 256 else l : Nat) : Nat) : Int) with
        | .error _ => (ctx, SW_WRONG_P1P2)
        | .ok d => (ctx, d ++ SW_SUCCESS) := by
      unfold handle_read_binary
      rw [hcf]
    constructor
    · intro heq
      rw [hdisp, hrb]
      have hok : read_binary content
          ((Apdu.p1p2 ⟨cla, 0xB0, p1, p2, lc, data, some l⟩ : Nat) : Int)
          (((if l = 0 then 256 else l : Nat) : Nat) : Int) = .ok [] := by
        unfold read_binary
        rw [if_neg (not_lt.mpr (Int.natCast_nonneg _)),
          if_neg (not_lt.mpr (Int.natCast_nonneg _))]
        rw [if_neg (by exact_mod_cast not_lt.mpr (le_of_eq heq))]
        congr 1
        rw [show ((Apdu.p1p2 ⟨cla, 0xB0, p1, p2, lc, data, some l⟩ : Nat) : Int).toNat
            = content.length from by rw [Int.toNat_natCast, heq]]
        rw [List.drop_length, List.take_nil]
      rw [hok]
      simp
    · intro hgt
      rw [hdisp, hrb]
      have herr : read_binary content
          ((Apdu.p1p2 ⟨cla, 0xB0, p1, p2, lc, data, some l⟩ : Nat) : Int)
          (((if l = 0 then 256 else l : Nat) : Nat) : Int) = .error .indexError := by
        unfold read_binary
        rw [if_neg (not_lt.mpr (Int.natCast_nonneg _)),
          if_neg (not_lt.mpr (Int.natCast_nonneg _))]
        rw [if_pos (by exact_mod_cast hgt)]
      rw [herr]

/-- C3 witness: on a 3-byte transparent EF, reading at offset 3 succeeds
with empty data and `90 00`, while offset 4 yields `6B 00`. -/
theorem read_binary_truncating_witness :
    read_binary [9, 8, 7] 3 2 = .ok [] ∧
    dispatch wCtxTR ⟨0, 0xB0, 0, 3, 0, [], some 2⟩ = (wCtxTR, SW_SUCCESS) ∧
    dispatch wCtxTR ⟨0, 0xB0, 0, 4, 0, [], some 2⟩ = (wCtxTR, SW_WRONG_P1P2) := by
  refine ⟨?_, ?_, ?_⟩
  · have h := ((read_binary_truncating wCtxTR).1 [9, 8, 7] 3 2).2.2.2
      (by decide) (by decide) (by decide)
    exact h.trans rfl
  · exact ((read_binary_truncating wCtxTR).2 0 0 3 0 [] 2 0x2FE2 "ICCID"
      [9, 8, 7] rfl).1 (by decide)
  · exact ((read_binary_truncating wCtxTR).2 0 0 4 0 [] 2 0x2FE2 "ICCID"
      [9, 8, 7] rfl).2 (by decide)

/-- C3 counterexample: a negative offset raises the invalid-argument
kind of error (Python `ValueError`), the same kind as a negative length,
not the out-of-range kind (`IndexError`) that the claim assigns to it;
the out-of-range kind is raised only for offset beyond the content. -/
theorem read_binary_error_kind_counterexample :
    read_binary [] (-1) 1 = .error .valueError ∧
    read_binary [] 0 (-1) = .error .valueError ∧
    read_binary [] 1 1 = .error .indexError ∧
    (Except.error PyErr.valueError : Except PyErr (List Nat)) ≠
      .error .indexError := by
  refine ⟨rfl, rfl, rfl, ?_⟩
  simp

/-- Helper: `handle_select` responds with a bare status word from the
produced vocabulary. -/
lemma handle_select_sw (ctx : CardContext) (a : Apdu) :
    (handle_select ctx a).2 ∈ producedSW := by
  unfold handle_select
  repeat' split
  all_goals
    simp [producedSW, SW_SUCCESS, SW_WRONG_LENGTH, SW_FILE_NOT_FOUND,
      SW_FUNC_NOT_SUPPORTED]

/-- Helper: every `handle_read_binary` response is data bytes followed by
a status word from the produced vocabulary. -/
lemma handle_read_binary_resp (ctx : CardContext) (a : Apdu) :
    ∃ d sw, (handle_read_binary ctx a).2 = d ++ sw ∧ sw ∈ producedSW := by
  unfold handle_read_binary
  repeat' split
  all_goals first
    | exact ⟨_, SW_SUCCESS, rfl, by simp [producedSW, SW_SUCCESS]⟩
    | exact ⟨[], SW_WRONG_LENGTH, rfl, by simp [producedSW, SW_WRONG_LENGTH]⟩
    | exact ⟨[], SW_WRONG_P1P2, rfl, by simp [producedSW, SW_WRONG_P1P2]⟩
    | exact ⟨[], SW_COMMAND_NOT_ALLOWED, rfl,
        by simp [producedSW, SW_COMMAND_NOT_ALLOWED]⟩

/-- Helper: every `handle_read_record` response is data bytes followed by
a status word from the produced vocabulary. -/
lemma handle_read_record_resp (ctx : CardContext) (a : Apdu) :
    ∃ d sw, (handle_read_record ctx a).2 = d ++ sw ∧ sw ∈ producedSW := by
  unfold handle_read_record
  repeat' split
  all_goals first
    | exact ⟨_, SW_SUCCESS, rfl, by simp [producedSW, SW_SUCCESS]⟩
    | exact ⟨[], SW_FUNC_NOT_SUPPORTED, rfl,
        by simp [producedSW, SW_FUNC_NOT_SUPPORTED]⟩
    | exact ⟨[], SW_WRONG_P1P2, rfl, by simp [producedSW, SW_WRONG_P1P2]⟩
    | exact ⟨[], SW_RECORD_NOT_FOUND, rfl, by simp [producedSW, SW_RECORD_NOT_FOUND]⟩
    | exact ⟨[], SW_COMMAND_NOT_ALLOWED, rfl,
        by simp [producedSW, SW_COMMAND_NOT_ALLOWED]⟩

/-- Helper: every `dispatch` response is data bytes followed by a status
word from the produced vocabulary. -/
lemma dispatch_resp (ctx : CardContext) (a : Apdu) :
    ∃ d sw, (dispatch ctx a).2 = d ++ sw ∧ sw ∈ producedSW := by
  unfold dispatch
  repeat' split
  · exact ⟨[], _, rfl, handle_select_sw ctx a⟩
  · exact handle_read_binary_resp ctx a
  · exact handle_read_record_resp ctx a
  · exact ⟨[], SW_INS_NOT_SUPPORTED, rfl, by simp [producedSW, SW_INS_NOT_SUPPORTED]⟩

/-- C5: `dispatch` always returns a response of at least 2 bytes whose
trailing two bytes are a status code from the status vocabulary (the
embedding is total, so no exception can escape), and an `ins` outside
the three mapped instructions yields exactly `6D 00` with the session
unchanged, without invoking any handler. -/
theorem dispatch_total_and_unmapped (ctx : CardContext) (a : Apdu) :
    (∃ d sw, (dispatch ctx a).2 = d ++ sw ∧ sw ∈ statusVocab ∧ sw.length = 2 ∧
       2 ≤ (dispatch ctx a).2.length) ∧
    (a.ins ∉ [INS_SELECT_FILE, INS_READ_BINARY, INS_READ_RECORD] →
       dispatch ctx a = (ctx, SW_INS_NOT_SUPPORTED)) := by
  constructor
  · obtain ⟨d, sw, hd, hm⟩ := dispatch_resp ctx a
    have hv : sw ∈ statusVocab := by
      have hsub : ∀ x ∈ producedSW, x ∈ statusVocab := by decide
      exact hsub sw hm
    have hl2 : sw.length = 2 := by
      have h2 : ∀ x ∈ producedSW, x.length = 2 := by decide
      exact h2 sw hm
    refine ⟨d, sw, hd, hv, hl2, ?_⟩
    rw [hd]
    simp [List.length_append, hl2]
  · intro hni
    have h : a.ins ≠ INS_SELECT_FILE ∧ a.ins ≠ INS_READ_BINARY ∧
        a.ins ≠ INS_READ_RECORD := by
      simpa [not_or] using hni
    unfold dispatch
    rw [if_neg h.1, if_neg h.2.1, if_neg h.2.2]

/-- C5 witness: the unmapped instruction `0x99` yields exactly `6D 00`. -/
theorem dispatch_total_and_unmapped_witness :
    dispatch wCtx ⟨0x00, 0x99, 0x12, 0x34, 0, [], none⟩ =
        (wCtx, SW_INS_NOT_SUPPORTED) ∧
      (∃ d sw, (dispatch wCtx ⟨0x00, 0x99, 0x12, 0x34, 0, [], none⟩).2 = d ++ sw ∧
        sw ∈ statusVocab ∧ sw.length = 2 ∧
        2 ≤ (dispatch wCtx ⟨0x00, 0x99, 0x12, 0x34, 0, [], none⟩).2.length) :=
  ⟨(dispatch_total_and_unmapped wCtx ⟨0x00, 0x99, 0x12, 0x34, 0, [], none⟩).2
      (by decide),
   (dispatch_total_and_unmapped wCtx ⟨0x00, 0x99, 0x12, 0x34, 0, [], none⟩).1⟩

/-- C9: whenever `handle_select` returns a non-success status (wrong
length for empty data, function not supported for non-2-byte data, or
file not found), the session state is exactly what it was before. -/
theorem select_error_preserves_session (ctx : CardContext) (a : Apdu)
    (h : (handle_select ctx a).2 ≠ SW_SUCCESS) :
    (handle_select ctx a).1 = ctx := by
  revert h
  unfold handle_select
  repeat' split
  all_goals intro h
  all_goals first
    | rfl
    | exact absurd rfl h

/-- C9 witness: a SELECT with empty data fails with wrong length and
leaves the session untouched. -/
theorem select_error_preserves_session_witness :
    (handle_select wCtx ⟨0, 0xA4, 0, 0, 0, [], none⟩).1 = wCtx :=
  select_error_preserves_session wCtx ⟨0, 0xA4, 0, 0, 0, [], none⟩ (by decide)

/-- C10: the response and the final session state of `dispatch` are
independent of the `cla` field, and the status word of every response
belongs to the produced vocabulary, which excludes `6E 00`
(class not supported) — that status is never returned. -/
theorem dispatch_ignores_cla (ctx : CardContext) (cla cla2 ins p1 p2 lc : Nat)
    (data : List Nat) (le : Option Nat) :
    dispatch ctx ⟨cla, ins, p1, p2, lc, data, le⟩ =
      dispatch ctx ⟨cla2, ins, p1, p2, lc, data, le⟩ ∧
    (∃ d sw, (dispatch ctx ⟨cla, ins, p1, p2, lc, data, le⟩).2 = d ++ sw ∧
       sw ∈ producedSW ∧ sw ≠ SW_CLA_NOT_SUPPORTED) := by
  constructor
  · rfl
  · obtain ⟨d, sw, hd, hm⟩ := dispatch_resp ctx ⟨cla, ins, p1, p2, lc, data, le⟩
    have hne : ∀ x ∈ producedSW, x ≠ SW_CLA_NOT_SUPPORTED := by decide
    exact ⟨d, sw, hd, hm, hne sw hm⟩

/-- C6: a SELECT whose 2-byte data encodes the root's fid resets both
the current DF and the current file to the root and returns `90 00`,
from any prior session state. -/
theorem select_root_resets (ctx : CardContext) (cla p1 p2 b0 b1 : Nat)
    (le : Option Nat) (hfid : b0 <<< 8 ||| b1 = ctx.mf_root.fid) :
    (dispatch ctx ⟨cla, 0xA4, p1, p2, 2, [b0, b1], le⟩).1.current_df = ctx.mf_root ∧
    (dispatch ctx ⟨cla, 0xA4, p1, p2, 2, [b0, b1], le⟩).1.current_file = ctx.mf_root ∧
    (dispatch ctx ⟨cla, 0xA4, p1, p2, 2, [b0, b1], le⟩).2 = SW_SUCCESS := by
  have hd : dispatch ctx ⟨cla, 0xA4, p1, p2, 2, [b0, b1], le⟩ =
      (ctx.reset_to_mf, SW_SUCCESS) := by
    show handle_select ctx ⟨cla, 0xA4, p1, p2, 2, [b0, b1], le⟩ =
      (ctx.reset_to_mf, SW_SUCCESS)
    unfold handle_select
    simp [fid_of_data, hfid]
  rw [hd]
  exact ⟨rfl, rfl, rfl⟩

/-- C6 witness: selecting `3F 00` from a session currently inside a
sub-DF resets both selection pointers to the root. -/
theorem select_root_resets_witness :
    (dispatch wCtx ⟨0, 0xA4, 0, 0x0C, 2, [0x3F, 0x00], none⟩).1.current_df
        = wCtx.mf_root ∧
      (dispatch wCtx ⟨0, 0xA4, 0, 0x0C, 2, [0x3F, 0x00], none⟩).1.current_file
        = wCtx.mf_root ∧
      (dispatch wCtx ⟨0, 0xA4, 0, 0x0C, 2, [0x3F, 0x00], none⟩).2 = SW_SUCCESS :=
  select_root_resets wCtx 0 0 0x0C 0x3F 0x00 none (by decide)

/-- C7: for a non-root fid, a hit of the relative lookup under the
current DF fully determines the SELECT outcome (the node found there is
selected, whatever the global lookup would say), and the global lookup
from the root decides the outcome only when the relative lookup found
nothing. -/
theorem select_relative_precedence (ctx : CardContext) (cla p1 p2 b0 b1 : Nat)
    (le : Option Nat) (n : FileNode)
    (hroot : b0 <<< 8 ||| b1 ≠ ctx.mf_root.fid) :
    (ctx.current_df.find (b0 <<< 8 ||| b1) = some n →
      dispatch ctx ⟨cla, 0xA4, p1, p2, 2, [b0, b1], le⟩ =
        (ctx.select_node n, SW_SUCCESS)) ∧
    (ctx.current_df.find (b0 <<< 8 ||| b1) = none →
      dispatch ctx ⟨cla, 0xA4, p1, p2, 2, [b0, b1], le⟩ =
        (match ctx.mf_root.find (b0 <<< 8 ||| b1) with
         | some m => (ctx.select_node m, SW_SUCCESS)
         | none => (ctx, SW_FILE_NOT_FOUND))) := by
  constructor
  · intro hrel
    show handle_select ctx ⟨cla, 0xA4, p1, p2, 2, [b0, b1], le⟩ =
      (ctx.select_node n, SW_SUCCESS)
    unfold handle_select
    simp [fid_of_data, hroot, CardContext.find_under_current_df, hrel]
  · intro hrel
    show handle_select ctx ⟨cla, 0xA4, p1, p2, 2, [b0, b1], le⟩ = _
    unfold handle_select
    cases hg : ctx.mf_root.find (b0 <<< 8 ||| b1) with
    | none =>
      simp [fid_of_data, hroot, CardContext.find_under_current_df,
        CardContext.find_anywhere, hrel, hg]
    | some m =>
      simp [fid_of_data, hroot, CardContext.find_under_current_df,
        CardContext.find_anywhere, hrel, hg]

/-- C7 witness: fid `6F 07` exists both under the current DF (`wEF2`)
and elsewhere in the tree (`wEF1` under the first branch); SELECT picks
the one under the current DF. -/
theorem select_relative_precedence_witness :
    dispatch wCtx ⟨0, 0xA4, 0, 0, 2, [0x6F, 0x07], none⟩ =
      (wCtx.select_node wEF2, SW_SUCCESS) :=
  (select_relative_precedence wCtx 0 0 0 0x6F 0x07 none wEF2 (by decide)).1 (by rfl)

/-- C8: on a linear-fixed current file in absolute access mode,
READ RECORD with record number 0 fails with `6B 00` (wrong parameters),
while record number `recordCount + 1` fails with the distinct status
`6A 83` (record not found). -/
theorem read_record_zero_vs_overflow (ctx : CardContext) (cla p2 lc : Nat)
    (data : List Nat) (le : Option Nat) (f : Nat) (nm : String) (rlen : Nat)
    (recs : List (List Nat))
    (hcf : ctx.current_file = FileNode.linearFixedEF f nm rlen recs)
    (hmode : p2 &&& 0x07 = 0x04) :
    dispatch ctx ⟨cla, 0xB2, 0, p2, lc, data, le⟩ = (ctx, SW_WRONG_P1P2) ∧
    dispatch ctx ⟨cla, 0xB2, recs.length + 1, p2, lc, data, le⟩ =
      (ctx, SW_RECORD_NOT_FOUND) ∧
    SW_WRONG_P1P2 ≠ SW_RECORD_NOT_FOUND := by
  refine ⟨?_, ?_, by decide⟩
  · show handle_read_record ctx ⟨cla, 0xB2, 0, p2, lc, data, le⟩ = (ctx, SW_WRONG_P1P2)
    unfold handle_read_record
    rw [hcf]
    simp [hmode]
  · show handle_read_record ctx ⟨cla, 0xB2, recs.length + 1, p2, lc, data, le⟩ =
      (ctx, SW_RECORD_NOT_FOUND)
    unfold handle_read_record
    rw [hcf]
    have hrr : read_record recs (recs.length + 1) = .error .indexError := by
      unfold read_record
      rw [if_neg (by omega), if_pos (by omega)]
    simp [hmode, hrr]

/-- C8 witness: on a 2-record linear-fixed EF, record 0 yields `6B 00`
and record 3 yields `6A 83`. -/
theorem read_record_zero_vs_overflow_witness :
    dispatch wCtxLF ⟨0, 0xB2, 0, 0x04, 0, [], none⟩ = (wCtxLF, SW_WRONG_P1P2) ∧
    dispatch wCtxLF ⟨0, 0xB2, 3, 0x04, 0, [], none⟩ =
      (wCtxLF, SW_RECORD_NOT_FOUND) := by
  have h := read_record_zero_vs_overflow wCtxLF 0 0x04 0 [] none 0x6F3A "ADN" 2
    [[1, 2], [3, 4]] rfl (by decide)
  exact ⟨h.1, h.2.1⟩

end USim
